import Mathlib

/-!
Shallow embedding of the AMLTF configuration and state-management fragment
(`amltf_coreconfig.py`, `amltf_corefirebase_state.py`).

Effects are made explicit: the process environment is a partial map from
variable names to string values, the filesystem is the set of existing paths,
Python exceptions are `Except` errors, and the module-level configuration
singleton is threaded as an `Option AMLTFConfig` value.
-/

/-- The process environment: `os.getenv` returns `none` when a variable is
unset and `some s` when it is set to `s` (possibly the empty string). -/
def Env : Type := String → Option String

/-- Python truthiness test used by `_validate_environment`:
`not os.getenv(var)` is `True` exactly when the variable is unset or set to
the empty string. -/
def envFalsy (env : Env) (v : String) : Bool :=
  match env v with
  | none => true
  | some s => s == ""

/-- `os.getenv(var, default)`: the default is used only when the variable is
unset; a variable set to the empty string yields the empty string. -/
def getenvD (env : Env) (v d : String) : String :=
  (env v).getD d

/-- The filesystem, abstracted as the set (list) of paths that exist
(files and directories alike, as tested by `os.path.exists`). -/
structure FS where
  paths : List String
deriving DecidableEq, Repr

/-- `os.path.exists(p)`. -/
def FS.pathExists (fs : FS) (p : String) : Bool :=
  fs.paths.contains p

/-- `os.makedirs(p, exist_ok=True)`: the path `p` exists afterwards and
nothing existing is removed (intermediate path components, which `makedirs`
also creates, are not tracked: no claim concerns them). -/
def FS.makedirs (fs : FS) (p : String) : FS :=
  if fs.paths.contains p then fs else ⟨p :: fs.paths⟩

/-- Python exceptions raised by this fragment. `envError` is
`EnvironmentError`, `runtimeError` is `RuntimeError`; `firebaseError` covers
exceptions surfaced by the Firebase backend calls. -/
inductive PyError
  | envError (msg : String)
  | runtimeError (msg : String)
  | firebaseError (msg : String)
deriving DecidableEq, Repr

/-- `str(e)` on an exception: its message. -/
def PyError.msg : PyError → String
  | .envError m => m
  | .runtimeError m => m
  | .firebaseError m => m

/-- `FirebaseConfig` dataclass: project id and credential path. -/
structure FirebaseConfig where
  project_id : String
  credentials_path : String
deriving DecidableEq, Repr

/-- `FirebaseConfig.validate`: the credential path must name an existing
file (the logging side effect is not modelled). -/
def FirebaseConfig.validate (c : FirebaseConfig) (fs : FS) : Bool :=
  fs.pathExists c.credentials_path

/-- `DataSourceConfig` dataclass fields. The `rate_limit_delay` float is
`1.0`, exactly representable, modelled as a rational. -/
structure DataSourceConfig where
  ccxt_timeout : Int
  max_retries : Int
  rate_limit_delay : Rat
deriving DecidableEq, Repr

/-- The dataclass defaults `ccxt_timeout=30000`, `max_retries=3`,
`rate_limit_delay=1.0`. -/
def DataSourceConfig.defaults : DataSourceConfig :=
  ⟨30000, 3, 1⟩

/-- The `AMLTFConfig` object after a successful `__init__`. -/
structure AMLTFConfig where
  firebase : FirebaseConfig
  data_sources : DataSourceConfig
  feature_store_path : String
deriving DecidableEq, Repr

/-- The list of required environment variables in `_validate_environment`. -/
def required_vars : List String :=
  ["GOOGLE_APPLICATION_CREDENTIALS"]

/-- `AMLTFConfig._validate_environment`: collect the required variables that
are unset-or-empty; raise `EnvironmentError` naming them when any is. -/
def AMLTFConfig.validate_environment (env : Env) : Except PyError Unit :=
  let missing := required_vars.filter (fun v => envFalsy env v)
  if missing.isEmpty then
    .ok ()
  else
    .error (.envError ("Missing environment variables: " ++
      String.intercalate ", " missing))

/-- `AMLTFConfig._load_firebase_config`: read the credential path (default
empty string) and project id (default `amltf-production`), build a
`FirebaseConfig`, and raise `RuntimeError` unless it validates. -/
def AMLTFConfig.load_firebase_config (env : Env) (fs : FS) :
    Except PyError FirebaseConfig :=
  let creds_path := getenvD env "GOOGLE_APPLICATION_CREDENTIALS" ""
  let project_id := getenvD env "FIREBASE_PROJECT_ID" "amltf-production"
  let config : FirebaseConfig := ⟨project_id, creds_path⟩
  if config.validate fs then
    .ok config
  else
    .error (.runtimeError "Firebase configuration invalid")

/-- `AMLTFConfig.__init__`: validate the environment, load the Firebase
configuration, set the data-source defaults and feature-store path, then
create the `data/features` and `logs` directories. Returns the resulting
object (or the raised error) together with the filesystem as it stands when
control leaves the constructor. -/
def AMLTFConfig.init (env : Env) (fs : FS) :
    Except PyError AMLTFConfig × FS :=
  match AMLTFConfig.validate_environment env with
  | .error e => (.error e, fs)
  | .ok _ =>
    match AMLTFConfig.load_firebase_config env fs with
    | .error e => (.error e, fs)
    | .ok fb =>
      let cfg : AMLTFConfig := ⟨fb, DataSourceConfig.defaults, "data/features"⟩
      let fs1 := fs.makedirs cfg.feature_store_path
      let fs2 := fs1.makedirs "logs"
      (.ok cfg, fs2)

/-- `get_config`: the lazily-initialized module-level singleton. Takes and
returns the singleton cell `_config_instance`; when construction raises, the
assignment to the cell never happens, so it stays `none`. -/
def get_config (env : Env) (fs : FS) (inst : Option AMLTFConfig) :
    Except PyError AMLTFConfig × FS × Option AMLTFConfig :=
  match inst with
  | some c => (.ok c, fs, some c)
  | none =>
    match AMLTFConfig.init env fs with
    | (.ok c, fs1) => (.ok c, fs1, some c)
    | (.error e, fs1) => (.error e, fs1, none)

/-- The Firestore database handle, abstracted as the set of collection
names that are accessible. -/
structure FirestoreDb where
  collections : List String
deriving DecidableEq, Repr

/-- An opaque credential object, as produced by `credentials.Certificate`. -/
structure Cred where
  path : String
deriving DecidableEq, Repr

/-- The external Firebase SDK, as seen by `FirebaseStateManager.__init__`:
whether `firebase_admin._apps` is nonempty, and the (possibly failing)
results of `credentials.Certificate`, `firebase_admin.initialize_app` and
`firestore.client`. -/
structure FirebaseWorld where
  apps_nonempty : Bool
  certificate : String → Except PyError Cred
  initialize_app : Cred → String → Except PyError Unit
  client : Except PyError FirestoreDb

/-- The fixed collection-name list in
`FirebaseStateManager._initialize_collections`. -/
def required_collections : List String :=
  ["market_data", "trading_strategies", "model_performance",
   "system_metrics", "feature_store"]

/-- Modelled from the spec: the body of the per-collection verification loop
is truncated in the source fragment (`_initialize_collections` breaks off at
`test_ref`); per the spec, the accessibility (existence) of each of the five
required collection names is checked and none is created. The check reads
neither the configuration nor the environment. -/
def FirebaseStateManager.initialize_collections (db : FirestoreDb) :
    Except PyError Unit :=
  match required_collections.find? (fun c => !(db.collections.contains c)) with
  | none => .ok ()
  | some c => .error (.firebaseError ("Collection not accessible: " ++ c))

/-- The body of the `try` block in `FirebaseStateManager.__init__`: load the
certificate and initialize the app when no app exists yet, obtain the
Firestore client, and verify the required collections. -/
def FirebaseStateManager.init_body (cfg : AMLTFConfig) (w : FirebaseWorld) :
    Except PyError FirestoreDb := do
  if !w.apps_nonempty then
    let cred ← w.certificate cfg.firebase.credentials_path
    w.initialize_app cred cfg.firebase.project_id
  let db ← w.client
  FirebaseStateManager.initialize_collections db
  pure db

/-- `FirebaseStateManager.__init__`: call `get_config()`, then run the `try`
block; on its failure, log `Failed to initialize Firebase: {e}` and re-raise
`e` unchanged. Returns the result, the log lines emitted, the filesystem and
the singleton cell after the call. A `get_config` failure propagates without
the Firebase log line, since it is raised outside the `try`. -/
def FirebaseStateManager.init (env : Env) (fs : FS)
    (inst : Option AMLTFConfig) (w : FirebaseWorld) :
    Except PyError FirestoreDb × List String × FS × Option AMLTFConfig :=
  match get_config env fs inst with
  | (.error e, fs1, inst1) => (.error e, [], fs1, inst1)
  | (.ok cfg, fs1, inst1) =>
    match FirebaseStateManager.init_body cfg w with
    | .ok db =>
      (.ok db, ["Firebase State Manager initialized successfully"], fs1, inst1)
    | .error e =>
      (.error e, ["Failed to initialize Firebase: " ++ e.msg], fs1, inst1)

/-- A projection of the dictionary returned by
`AMLTFConfig.get_logging_config`: the fixed literal values it contains. -/
structure LoggingConfigDict where
  version : Int
  disable_existing_loggers : Bool
  file_handler_filename : String
  console_level : String
  file_level : String
  root_level : String
deriving DecidableEq, Repr

/-- `AMLTFConfig.get_logging_config`: a constant dictionary, independent of
the configuration fields and mutating nothing. -/
def AMLTFConfig.get_logging_config (_ : AMLTFConfig) : LoggingConfigDict :=
  ⟨1, false, "logs/amltf.log", "INFO", "DEBUG", "INFO"⟩

/-- The operations this fragment offers once a configuration exists: a
repeat `get_config()` call, `get_logging_config()`, and constructing a
`FirebaseStateManager` (which itself calls `get_config()`). -/
inductive Op
  | opGetConfig (env : Env) (fs : FS)
  | opGetLoggingConfig
  | opStateManagerInit (env : Env) (fs : FS) (w : FirebaseWorld)

/-- The effect of an operation on the module-level singleton cell
`_config_instance`. -/
def applyOp (op : Op) (inst : Option AMLTFConfig) : Option AMLTFConfig :=
  match op with
  | .opGetConfig env fs => (get_config env fs inst).2.2
  | .opGetLoggingConfig => inst
  | .opStateManagerInit env fs w =>
    (FirebaseStateManager.init env fs inst w).2.2.2

/-- A sample environment with both variables set. -/
def envFull : Env := fun v =>
  if v = "GOOGLE_APPLICATION_CREDENTIALS" then some "/creds/serviceAccount.json"
  else if v = "FIREBASE_PROJECT_ID" then some "my-project"
  else none

/-- A sample environment with only the required variable set. -/
def envOnlyCreds : Env := fun v =>
  if v = "GOOGLE_APPLICATION_CREDENTIALS" then some "/creds/serviceAccount.json"
  else none

/-- A sample environment with the required variable set to the empty
string. -/
def envEmptyCreds : Env := fun v =>
  if v = "GOOGLE_APPLICATION_CREDENTIALS" then some "" else none

/-- A sample environment with nothing set. -/
def envNone : Env := fun _ => none

/-- A sample filesystem on which the credential file exists. -/
def fsCreds : FS := ⟨["/creds/serviceAccount.json"]⟩

/-- A sample empty filesystem. -/
def fsEmpty : FS := ⟨[]⟩

/-- A sample constructed configuration. -/
def cfgExample : AMLTFConfig :=
  ⟨⟨"my-project", "/creds/serviceAccount.json"⟩,
   DataSourceConfig.defaults, "data/features"⟩

/-- A sample Firebase SDK state whose client call fails. -/
def worldClientFails : FirebaseWorld :=
  ⟨true, fun p => .ok ⟨p⟩, fun _ _ => .ok (),
   .error (.firebaseError "client unavailable")⟩

/-! Helper lemmas about the filesystem model. -/

theorem FS.pathExists_iff (fs : FS) (p : String) :
    fs.pathExists p = true ↔ p ∈ fs.paths := by
  simp [FS.pathExists, List.contains, List.elem_iff]

theorem FS.mem_makedirs (fs : FS) (p q : String) :
    q ∈ (fs.makedirs p).paths ↔ q = p ∨ q ∈ fs.paths := by
  unfold FS.makedirs
  by_cases hc : fs.paths.contains p
  · rw [if_pos hc]
    have hp : p ∈ fs.paths := by
      simpa [List.contains, List.elem_iff] using hc
    constructor
    · exact Or.inr
    · rintro (rfl | hm)
      · exact hp
      · exact hm
  · rw [if_neg hc]
    simp [List.mem_cons]

theorem FS.pathExists_makedirs_self (fs : FS) (p : String) :
    (fs.makedirs p).pathExists p = true := by
  rw [FS.pathExists_iff, FS.mem_makedirs]
  exact Or.inl rfl

theorem FS.pathExists_makedirs_mono (fs : FS) (p q : String)
    (h : fs.pathExists q = true) : (fs.makedirs p).pathExists q = true := by
  rw [FS.pathExists_iff, FS.mem_makedirs]
  exact Or.inr ((FS.pathExists_iff fs q).mp h)

/-- With the required variable set nonempty, `_validate_environment`
succeeds. -/
theorem validate_environment_ok (env : Env) (p : String)
    (hset : env "GOOGLE_APPLICATION_CREDENTIALS" = some p) (hne : p ≠ "") :
    AMLTFConfig.validate_environment env = .ok () := by
  unfold AMLTFConfig.validate_environment required_vars
  have hb : (p == "") = false := beq_eq_false_iff_ne.mpr hne
  simp [List.filter, envFalsy, hset, hb]

/-- With the required variable set nonempty and the credential file present,
`__init__` returns the fully determined configuration object and creates the
two directories. -/
theorem AMLTFConfig.init_ok (env : Env) (fs : FS) (p : String)
    (hset : env "GOOGLE_APPLICATION_CREDENTIALS" = some p) (hne : p ≠ "")
    (hfile : fs.pathExists p = true) :
    AMLTFConfig.init env fs =
      (.ok ⟨⟨getenvD env "FIREBASE_PROJECT_ID" "amltf-production", p⟩,
          DataSourceConfig.defaults, "data/features"⟩,
        (fs.makedirs "data/features").makedirs "logs") := by
  unfold AMLTFConfig.init
  rw [validate_environment_ok env p hset hne]
  unfold AMLTFConfig.load_firebase_config
  simp [getenvD, hset, FirebaseConfig.validate, hfile]

/-- C1: with the required environment variable set (nonempty) and the
credential file existing, the first `get_config()` call returns a
configuration and stores it; every later call returns that same stored
configuration unchanged; its `credentials_path` equals the value of
`GOOGLE_APPLICATION_CREDENTIALS` and its `project_id` equals
`FIREBASE_PROJECT_ID` whenever that variable is set. -/
theorem get_config_idempotent_and_matches_env (env : Env) (fs : FS)
    (p : String)
    (hset : env "GOOGLE_APPLICATION_CREDENTIALS" = some p) (hne : p ≠ "")
    (hfile : fs.pathExists p = true) :
    ∃ (c : AMLTFConfig) (fs1 : FS),
      get_config env fs none = (.ok c, fs1, some c) ∧
      (∀ (env2 : Env) (fs2 : FS),
        get_config env2 fs2 (some c) = (.ok c, fs2, some c)) ∧
      c.firebase.credentials_path = p ∧
      (∀ pid, env "FIREBASE_PROJECT_ID" = some pid →
        c.firebase.project_id = pid) := by
  refine ⟨⟨⟨getenvD env "FIREBASE_PROJECT_ID" "amltf-production", p⟩,
      DataSourceConfig.defaults, "data/features"⟩,
    (fs.makedirs "data/features").makedirs "logs", ?_, ?_, rfl, ?_⟩
  · unfold get_config
    rw [AMLTFConfig.init_ok env fs p hset hne hfile]
  · intro env2 fs2
    rfl
  · intro pid hpid
    simp [getenvD, hpid]

/-- When the required variable is unset-or-empty, `__init__` raises the
`EnvironmentError` and leaves the filesystem untouched. -/
theorem init_error_of_falsy (env : Env) (fs : FS)
    (h : envFalsy env "GOOGLE_APPLICATION_CREDENTIALS" = true) :
    AMLTFConfig.init env fs =
      (.error (.envError
        "Missing environment variables: GOOGLE_APPLICATION_CREDENTIALS"),
       fs) := by
  unfold AMLTFConfig.init AMLTFConfig.validate_environment required_vars
  simp only [List.filter, h, List.isEmpty_cons]
  rfl

/-- C2: with `GOOGLE_APPLICATION_CREDENTIALS` unset, construction raises
`EnvironmentError` naming it, and the filesystem is exactly as before: in
particular neither `data/features` nor `logs` came into existence. -/
theorem init_missing_var_fails_before_mkdir (env : Env) (fs : FS)
    (h : env "GOOGLE_APPLICATION_CREDENTIALS" = none) :
    AMLTFConfig.init env fs =
      (.error (.envError
        "Missing environment variables: GOOGLE_APPLICATION_CREDENTIALS"),
       fs) ∧
    (AMLTFConfig.init env fs).2.pathExists "data/features" =
      fs.pathExists "data/features" ∧
    (AMLTFConfig.init env fs).2.pathExists "logs" = fs.pathExists "logs" := by
  have h1 := init_error_of_falsy env fs (by simp [envFalsy, h])
  exact ⟨h1, by rw [h1], by rw [h1]⟩

/-- C3: with the required variable set (nonempty) but the credential path
naming no existing file, construction raises `RuntimeError`; and in general
a configuration object is only ever constructed when the credential path it
carries named an existing file at validation time. -/
theorem init_bad_credfile_fails (env : Env) (fs : FS) (p : String)
    (hset : env "GOOGLE_APPLICATION_CREDENTIALS" = some p) (hne : p ≠ "")
    (hnofile : fs.pathExists p = false) :
    AMLTFConfig.init env fs =
      (.error (.runtimeError "Firebase configuration invalid"), fs) ∧
    ∀ (env2 : Env) (fs2 : FS) (c : AMLTFConfig) (fs3 : FS),
      AMLTFConfig.init env2 fs2 = (.ok c, fs3) →
      fs2.pathExists c.firebase.credentials_path = true := by
  constructor
  · unfold AMLTFConfig.init
    rw [validate_environment_ok env p hset hne]
    unfold AMLTFConfig.load_firebase_config
    simp [getenvD, hset, FirebaseConfig.validate, hnofile]
  · intro env2 fs2 c fs3 hinit
    unfold AMLTFConfig.init at hinit
    cases hv : AMLTFConfig.validate_environment env2 with
    | error e =>
      rw [hv] at hinit
      cases hinit
    | ok u =>
      rw [hv] at hinit
      cases hl : AMLTFConfig.load_firebase_config env2 fs2 with
      | error e =>
        rw [hl] at hinit
        cases hinit
      | ok fb =>
        rw [hl] at hinit
        have hc : c = ⟨fb, DataSourceConfig.defaults, "data/features"⟩ := by
          have := congrArg Prod.fst hinit
          simpa using this.symm
        unfold AMLTFConfig.load_firebase_config at hl
        by_cases hval :
            (FirebaseConfig.mk
              (getenvD env2 "FIREBASE_PROJECT_ID" "amltf-production")
              (getenvD env2 "GOOGLE_APPLICATION_CREDENTIALS" "")).validate fs2
        · have hfb : fb = ⟨getenvD env2 "FIREBASE_PROJECT_ID" "amltf-production",
              getenvD env2 "GOOGLE_APPLICATION_CREDENTIALS" ""⟩ := by
            rw [if_pos hval] at hl
            cases hl
            rfl
          rw [hc, hfb]
          simpa [FirebaseConfig.validate] using hval
        · rw [if_neg hval] at hl
          cases hl

/-- C4: whenever construction succeeds, both the feature-store directory
`data/features` and the `logs` directory exist on the resulting
filesystem. -/
theorem init_ok_creates_directories (env : Env) (fs : FS)
    (c : AMLTFConfig) (fs1 : FS)
    (h : AMLTFConfig.init env fs = (.ok c, fs1)) :
    fs1.pathExists "data/features" = true ∧
    fs1.pathExists "logs" = true := by
  unfold AMLTFConfig.init at h
  cases hv : AMLTFConfig.validate_environment env with
  | error e =>
    rw [hv] at h
    cases h
  | ok u =>
    rw [hv] at h
    cases hl : AMLTFConfig.load_firebase_config env fs with
    | error e =>
      rw [hl] at h
      cases h
    | ok fb =>
      rw [hl] at h
      have hfs1 : fs1 = (fs.makedirs "data/features").makedirs "logs" := by
        have := congrArg Prod.snd h
        simpa using this.symm
      subst hfs1
      exact ⟨FS.pathExists_makedirs_mono _ _ _
          (FS.pathExists_makedirs_self fs "data/features"),
        FS.pathExists_makedirs_self _ "logs"⟩

/-- C5: the collection names whose accessibility the state manager checks
at construction are exactly the fixed five, and the check succeeds exactly
when each of the five is accessible in the database — it takes no
configuration or environment input. -/
theorem collections_checked_fixed_five :
    required_collections = ["market_data", "trading_strategies",
      "model_performance", "system_metrics", "feature_store"] ∧
    ∀ db : FirestoreDb,
      (FirebaseStateManager.initialize_collections db = .ok () ↔
        ∀ c ∈ required_collections, db.collections.contains c = true) := by
  refine ⟨rfl, ?_⟩
  intro db
  unfold FirebaseStateManager.initialize_collections
  cases hf : required_collections.find?
      (fun c => !(db.collections.contains c)) with
  | none =>
    constructor
    · intro _ c hc
      have := List.find?_eq_none.mp hf c hc
      simpa using this
    · intro _
      rfl
  | some c =>
    constructor
    · intro h
      cases h
    · intro hall
      exfalso
      have hmem := List.mem_of_find?_eq_some hf
      have hp := List.find?_some hf
      have hc := hall c hmem
      rw [hc] at hp
      simp at hp

/-- C6: when any step inside the state manager's `try` block (credential
loading, app initialization, client creation, or collection verification)
fails with error `e`, the constructor logs
`Failed to initialize Firebase: {e}` and re-raises exactly `e`: no retry,
no recovery, no alternative value, and the singleton and filesystem are as
`get_config` left them. -/
theorem state_manager_failure_logged_reraised (env : Env) (fs : FS)
    (inst : Option AMLTFConfig) (w : FirebaseWorld) (cfg : AMLTFConfig)
    (fs1 : FS) (inst1 : Option AMLTFConfig) (e : PyError)
    (hcfg : get_config env fs inst = (.ok cfg, fs1, inst1))
    (hbody : FirebaseStateManager.init_body cfg w = .error e) :
    FirebaseStateManager.init env fs inst w =
      (.error e, ["Failed to initialize Firebase: " ++ e.msg],
       fs1, inst1) := by
  unfold FirebaseStateManager.init
  rw [hcfg]
  dsimp only
  rw [hbody]

/-- C7: once the singleton holds a configuration `c` (the state after
`get_config()` first returns), every operation of the fragment leaves it
holding the very same `c`, so every configuration field is unchanged. -/
theorem config_fields_unchanged_after_first_return (op : Op)
    (c : AMLTFConfig) :
    applyOp op (some c) = some c ∧
    ∀ d, applyOp op (some c) = some d →
      d.firebase = c.firebase ∧ d.data_sources = c.data_sources ∧
      d.feature_store_path = c.feature_store_path := by
  have h1 : applyOp op (some c) = some c := by
    cases op with
    | opGetConfig env fs => rfl
    | opGetLoggingConfig => rfl
    | opStateManagerInit env fs w =>
      show (FirebaseStateManager.init env fs (some c) w).2.2.2 = some c
      unfold FirebaseStateManager.init
      have hg : get_config env fs (some c) = (.ok c, fs, some c) := rfl
      rw [hg]
      dsimp only
      cases hb : FirebaseStateManager.init_body c w <;> rfl
  refine ⟨h1, ?_⟩
  intro d hd
  rw [h1] at hd
  cases hd
  exact ⟨rfl, rfl, rfl⟩

/-- C8: `GOOGLE_APPLICATION_CREDENTIALS` alone suffices — with it set
(nonempty), the credential file present, and `FIREBASE_PROJECT_ID` unset,
construction succeeds and the project id is the default
`amltf-production`. -/
theorem gac_only_required_var_default_project (env : Env) (fs : FS)
    (p : String)
    (hset : env "GOOGLE_APPLICATION_CREDENTIALS" = some p) (hne : p ≠ "")
    (hfile : fs.pathExists p = true)
    (hunset : env "FIREBASE_PROJECT_ID" = none) :
    ∃ (c : AMLTFConfig) (fs1 : FS),
      AMLTFConfig.init env fs = (.ok c, fs1) ∧
      c.firebase.project_id = "amltf-production" ∧
      c.firebase.credentials_path = p := by
  refine ⟨_, _, AMLTFConfig.init_ok env fs p hset hne hfile, ?_, rfl⟩
  simp [getenvD, hunset]

/-- C9: a required variable set to the empty string is treated exactly as
if it were absent — the falsy emptiness test fires, construction raises the
same `EnvironmentError`, and the result coincides with that of an
environment in which the variable is unset. -/
theorem empty_required_var_counts_as_missing (env env2 : Env) (fs : FS)
    (h : env "GOOGLE_APPLICATION_CREDENTIALS" = some "")
    (h2 : env2 "GOOGLE_APPLICATION_CREDENTIALS" = none) :
    AMLTFConfig.init env fs = AMLTFConfig.init env2 fs ∧
    AMLTFConfig.init env fs =
      (.error (.envError
        "Missing environment variables: GOOGLE_APPLICATION_CREDENTIALS"),
       fs) := by
  have he := init_error_of_falsy env fs (by simp [envFalsy, h])
  have he2 := init_error_of_falsy env2 fs (by simp [envFalsy, h2])
  exact ⟨he.trans he2.symm, he⟩

/-- C10: when construction fails, `get_config()` propagates the error and
the singleton cell stays `none` (a later call constructs again); and in
general the cell only ever ends up holding a configuration that was
returned successfully. -/
theorem get_config_failure_leaves_singleton_unset (env : Env) (fs : FS)
    (e : PyError)
    (h : (AMLTFConfig.init env fs).1 = .error e) :
    get_config env fs none = (.error e, (AMLTFConfig.init env fs).2, none) ∧
    ∀ (env2 : Env) (fs2 : FS) (inst : Option AMLTFConfig)
      (r : Except PyError AMLTFConfig) (fs3 : FS) (c : AMLTFConfig),
      get_config env2 fs2 inst = (r, fs3, some c) → r = .ok c := by
  constructor
  · unfold get_config
    cases hi : AMLTFConfig.init env fs with
    | mk r fs1 =>
      rw [hi] at h
      simp only at h
      subst h
      rfl
  · intro env2 fs2 inst r fs3 c hg
    cases inst with
    | some c0 =>
      unfold get_config at hg
      have h1 : r = .ok c0 := by
        have := congrArg Prod.fst hg
        simpa using this.symm
      have h2 : c0 = c := by
        have := congrArg (fun x => x.2.2) hg
        simpa using this
      rw [h1, h2]
    | none =>
      unfold get_config at hg
      cases hi : AMLTFConfig.init env2 fs2 with
      | mk r0 fs0 =>
        rw [hi] at hg
        cases r0 with
        | ok c0 =>
          have h1 : r = .ok c0 := by
            have := congrArg Prod.fst hg
            simpa using this.symm
          have h2 : c0 = c := by
            have := congrArg (fun x => x.2.2) hg
            simpa using this
          rw [h1, h2]
        | error e0 =>
          have := congrArg (fun x => x.2.2) hg
          simp at this

/-- Witness for C1 at a concrete environment and filesystem. -/
theorem get_config_idempotent_and_matches_env_witness :
    ∃ (c : AMLTFConfig) (fs1 : FS),
      get_config envFull fsCreds none = (.ok c, fs1, some c) ∧
      (∀ (env2 : Env) (fs2 : FS),
        get_config env2 fs2 (some c) = (.ok c, fs2, some c)) ∧
      c.firebase.credentials_path = "/creds/serviceAccount.json" ∧
      (∀ pid, envFull "FIREBASE_PROJECT_ID" = some pid →
        c.firebase.project_id = pid) :=
  get_config_idempotent_and_matches_env envFull fsCreds
    "/creds/serviceAccount.json" rfl (by decide) (by decide)

/-- Witness for C2 at a concrete environment and filesystem. -/
theorem init_missing_var_fails_before_mkdir_witness :
    AMLTFConfig.init envNone fsEmpty =
      (.error (.envError
        "Missing environment variables: GOOGLE_APPLICATION_CREDENTIALS"),
       fsEmpty) ∧
    (AMLTFConfig.init envNone fsEmpty).2.pathExists "data/features" =
      fsEmpty.pathExists "data/features" ∧
    (AMLTFConfig.init envNone fsEmpty).2.pathExists "logs" =
      fsEmpty.pathExists "logs" :=
  init_missing_var_fails_before_mkdir envNone fsEmpty rfl

/-- Witness for C3 at a concrete environment and filesystem. -/
theorem init_bad_credfile_fails_witness :
    AMLTFConfig.init envOnlyCreds fsEmpty =
      (.error (.runtimeError "Firebase configuration invalid"), fsEmpty) ∧
    ∀ (env2 : Env) (fs2 : FS) (c : AMLTFConfig) (fs3 : FS),
      AMLTFConfig.init env2 fs2 = (.ok c, fs3) →
      fs2.pathExists c.firebase.credentials_path = true :=
  init_bad_credfile_fails envOnlyCreds fsEmpty "/creds/serviceAccount.json"
    rfl (by decide) (by decide)

/-- Witness for C4 at a concrete successful construction. -/
theorem init_ok_creates_directories_witness :
    FS.pathExists
        ⟨["logs", "data/features", "/creds/serviceAccount.json"]⟩
        "data/features" = true ∧
    FS.pathExists
        ⟨["logs", "data/features", "/creds/serviceAccount.json"]⟩
        "logs" = true :=
  init_ok_creates_directories envFull fsCreds cfgExample
    ⟨["logs", "data/features", "/creds/serviceAccount.json"]⟩ rfl

/-- Witness for C5 at a concrete database. -/
theorem collections_checked_fixed_five_witness :
    FirebaseStateManager.initialize_collections ⟨required_collections⟩ =
      .ok () :=
  (collections_checked_fixed_five.2 ⟨required_collections⟩).mpr (by decide)

/-- Witness for C6 at a concrete failing Firebase SDK state. -/
theorem state_manager_failure_logged_reraised_witness :
    FirebaseStateManager.init envFull fsCreds (some cfgExample)
        worldClientFails =
      (.error (.firebaseError "client unavailable"),
       ["Failed to initialize Firebase: client unavailable"],
       fsCreds, some cfgExample) :=
  state_manager_failure_logged_reraised envFull fsCreds (some cfgExample)
    worldClientFails cfgExample fsCreds (some cfgExample)
    (.firebaseError "client unavailable") rfl rfl

/-- Witness for C7 at a concrete operation and configuration. -/
theorem config_fields_unchanged_witness :
    applyOp .opGetLoggingConfig (some cfgExample) = some cfgExample :=
  (config_fields_unchanged_after_first_return .opGetLoggingConfig
    cfgExample).1

/-- Witness for C8 at a concrete environment binding only the required
variable. -/
theorem gac_only_required_var_default_project_witness :
    ∃ (c : AMLTFConfig) (fs1 : FS),
      AMLTFConfig.init envOnlyCreds fsCreds = (.ok c, fs1) ∧
      c.firebase.project_id = "amltf-production" ∧
      c.firebase.credentials_path = "/creds/serviceAccount.json" :=
  gac_only_required_var_default_project envOnlyCreds fsCreds
    "/creds/serviceAccount.json" rfl (by decide) (by decide) rfl

/-- Witness for C9 at concrete environments. -/
theorem empty_required_var_counts_as_missing_witness :
    AMLTFConfig.init envEmptyCreds fsEmpty =
      AMLTFConfig.init envNone fsEmpty ∧
    AMLTFConfig.init envEmptyCreds fsEmpty =
      (.error (.envError
        "Missing environment variables: GOOGLE_APPLICATION_CREDENTIALS"),
       fsEmpty) :=
  empty_required_var_counts_as_missing envEmptyCreds envNone fsEmpty rfl rfl

/-- Witness for C10 at a concrete failing construction. -/
theorem get_config_failure_leaves_singleton_unset_witness :
    get_config envNone fsEmpty none =
      (.error (.envError
        "Missing environment variables: GOOGLE_APPLICATION_CREDENTIALS"),
       (AMLTFConfig.init envNone fsEmpty).2, none) ∧
    ∀ (env2 : Env) (fs2 : FS) (inst : Option AMLTFConfig)
      (r : Except PyError AMLTFConfig) (fs3 : FS) (c : AMLTFConfig),
      get_config env2 fs2 inst = (r, fs3, some c) → r = .ok c :=
  get_config_failure_leaves_singleton_unset envNone fsEmpty
    (.envError
      "Missing environment variables: GOOGLE_APPLICATION_CREDENTIALS")
    rfl
